import Mathlib

/-
Verification of the type-erasure dispatch mechanism in src/src/main.cpp
(class AnyPerson with its internal IPersonHolder / PersonHolder adapter,
the Library::Office consumer, and the demo workers Cook and Programmer).

Observable effects are modelled writer-style: every dispatch returns a
RunResult holding the text written to standard output, an optional error
(the failed assert for an arity mismatch, the bad_any_cast exception for a
type mismatch), and the Unit return value of the void call chain.
-/

namespace UnopinionatedLib

/-- Runtime type identities (typeid) of every value type that crosses the
erasure boundary in the program, plus int and long to model the
no-implicit-conversion behaviour of std::any_cast. -/
inductive Ty
  | monitorT
  | keyboardT
  | cupT
  | recipeT
  | ingredientListT
  | intT
  | longT
deriving DecidableEq

/-- Demo value type Monitor (line 61): name() returns "monitor". -/
inductive Monitor
  | mk
deriving DecidableEq

/-- Demo value type Keyboard (line 62): name() returns "keyboard". -/
inductive Keyboard
  | mk
deriving DecidableEq

/-- Demo value type Cup (line 63): name() returns "coffee". -/
inductive Cup
  | mk
deriving DecidableEq

/-- Demo value type Recipe (line 64): name() returns "recipe". -/
inductive Recipe
  | mk
deriving DecidableEq

/-- Demo value type Ingredient (lines 65-70): stores an immutable name. -/
structure Ingredient where
  m_name : String
deriving DecidableEq

def Monitor.name (_ : Monitor) : String := "monitor"

def Keyboard.name (_ : Keyboard) : String := "keyboard"

def Cup.name (_ : Cup) : String := "coffee"

def Recipe.name (_ : Recipe) : String := "recipe"

def Ingredient.name (i : Ingredient) : String := i.m_name

/-- The value type denoted by each runtime type identity. int and long are
distinct C++ types of the same mathematical content, so both map to Int
while their tags stay distinct. -/
def interp : Ty → Type
  | Ty.monitorT => Monitor
  | Ty.keyboardT => Keyboard
  | Ty.cupT => Cup
  | Ty.recipeT => Recipe
  | Ty.ingredientListT => List Ingredient
  | Ty.intT => Int
  | Ty.longT => Int

/-- Model of std::any: one stored value tagged with its runtime type. -/
structure Any where
  tag : Ty
  val : interp tag

/-- Erasing a value into a std::any (the implicit conversion performed by
push_back in detail::collect_any_vector, line 75). -/
def toAny (t : Ty) (v : interp t) : Any := Any.mk t v

/-- Model of std::any_cast at one argument position (line 122): succeeds
exactly when the requested type equals the stored type; no conversion of
any kind is attempted. -/
def castOne (t : Ty) (a : Any) : Option (interp t) :=
  if h : a.tag = t then some (h ▸ a.val) else none

/-- A heterogeneous argument tuple typed by the ordered list of parameter
types; this is the shape of the pack handed to do_work. -/
inductive HList : List Ty → Type
  | nil : HList []
  | cons : {t : Ty} → {ts : List Ty} → interp t → HList ts → HList (t :: ts)

def HList.head : {t : Ty} → {ts : List Ty} → HList (t :: ts) → interp t
  | _, _, HList.cons v _ => v

def HList.tail : {t : Ty} → {ts : List Ty} → HList (t :: ts) → HList ts
  | _, _, HList.cons _ r => r

/-- Erasing a whole typed argument pack into a list of std::any values,
in positional order. -/
def eraseAll : {τ : List Ty} → HList τ → List Any
  | _, HList.nil => []
  | _, HList.cons v r => toAny _ v :: eraseAll r

/-- The erased form of the i-th caller-supplied argument of a pack. -/
def hlistNth : {τ : List Ty} → HList τ → Nat → Option Any
  | _, HList.nil, _ => none
  | _, HList.cons v _, 0 => some (toAny _ v)
  | _, HList.cons _ r, Nat.succ i => hlistNth r i

/-- Model of detail::collect_any_vector (lines 73-77): the fold expression
pushes each argument of the pack onto the vector left to right, erasing it
into a std::any. -/
def collect_any_vector : List Any → {τ : List Ty} → HList τ → List Any
  | vector, _, HList.nil => vector
  | vector, _, HList.cons v r => collect_any_vector (vector ++ [toAny _ v]) r

/-- Model of the pack of std::any_cast calls in invoke_work_impl
(lines 118-123): extract every positional argument at its expected static
type; if any extraction fails the whole call fails (bad_any_cast) and
do_work is never entered. -/
def castArgs : (σ : List Ty) → List Any → Option (HList σ)
  | [], [] => some HList.nil
  | t :: ts, a :: rest =>
      match castOne t a, castArgs ts rest with
      | some v, some vs => some (HList.cons v vs)
      | _, _ => none
  | _, _ => none

/-- The two failure modes of the dispatch path: the assert on the argument
count (line 113) and the bad_any_cast thrown by a failed extraction
(line 122), which the spec calls TypeMismatch. -/
inductive DispatchError
  | arityAssertionFailure
  | typeMismatch
deriving DecidableEq

/-- Observable outcome of one dispatch: the text written to stdout before
control returned or the error fired, the error if one fired, and the Unit
value returned by the void call chain. -/
structure RunResult where
  out : String
  err : Option DispatchError
  ret : Unit
deriving DecidableEq

/-- A concrete Library::Person subclass with its do_work operation of
signature σ: the name inherited from Library::Person (lines 138-146) and
the void operation itself, whose effect is the text it prints. -/
structure Worker (σ : List Ty) where
  name : String
  do_work : HList σ → String × Unit

/-- Model of AnyPerson::PersonHolder (lines 105-126): owns one worker; the
ordered parameter-type list σ of its do_work is baked into the type. -/
structure PersonHolder (σ : List Ty) where
  m_person : Worker σ

def PersonHolder.name {σ : List Ty} (h : PersonHolder σ) : String :=
  h.m_person.name

/-- Model of PersonHolder::invoke_work (lines 112-123): assert that the
argument count equals the arity (failing fatally with no output from this
function otherwise), print the fixed marker, then extract every argument at
its expected type and call do_work; a failed extraction throws after the
marker is out and before do_work runs. -/
def PersonHolder.invoke_work {σ : List Ty} (h : PersonHolder σ)
    (arguments : List Any) : RunResult :=
  if arguments.length = σ.length then
    match castArgs σ arguments with
    | some vals =>
        let r := h.m_person.do_work vals
        RunResult.mk ("working on " ++ r.1) none r.2
    | none =>
        RunResult.mk "working on " (some DispatchError.typeMismatch) ()
  else
    RunResult.mk "" (some DispatchError.arityAssertionFailure) ()

/-- Model of class AnyPerson (lines 81-135): the public value type owning
one PersonHolder whose signature σ was fixed at construction time. -/
structure AnyPerson where
  sig : List Ty
  m_personHolder : PersonHolder sig

/-- Model of the AnyPerson constructor (lines 83-87, 129-132): make_holder
introspects the do_work member of the concrete Person subclass and stores
the worker in a PersonHolder keyed by its parameter list. -/
def AnyPerson.ofWorker {σ : List Ty} (w : Worker σ) : AnyPerson :=
  AnyPerson.mk σ (PersonHolder.mk w)

def AnyPerson.name (d : AnyPerson) : String := d.m_personHolder.name

/-- Model of AnyPerson::work (lines 91-96): erase the caller arguments into
a fresh vector of std::any in call order, then delegate to the virtual
invoke_work of the stored holder. -/
def AnyPerson.work (d : AnyPerson) {τ : List Ty} (args : HList τ) : RunResult :=
  d.m_personHolder.invoke_work (collect_any_vector [] args)

/-- Model of the implicit move constructor of AnyPerson: the unique_ptr
member transfers, so the new dispatcher refers to the very same holder. -/
def AnyPerson.moveFrom (d : AnyPerson) : AnyPerson :=
  AnyPerson.mk d.sig d.m_personHolder

/-- The std::unique_ptr template is move-only: it is not copy-constructible. -/
def uniquePtrIsCopyConstructible : Bool := false

/-- Copy-constructibility of each data member of AnyPerson: its single
member is std::unique_ptr<IPersonHolder> m_personHolder (line 134). -/
def AnyPerson.memberCopyConstructibility : List Bool :=
  [uniquePtrIsCopyConstructible]

/-- Copy-constructibility of AnyPerson under the C++ special-member rules:
AnyPerson declares no copy constructor of its own (the template constructor
at lines 83-87 is constrained by enable_if to Library::Person subclasses,
which AnyPerson is not), so its implicit copy constructor is deleted exactly
when some member is not copy-constructible. -/
def AnyPerson.copyConstructible : Bool :=
  AnyPerson.memberCopyConstructibility.all id

/-- Names of virtual member functions a holder interface could declare;
cloneM names a hypothetical clone entry so its absence can be stated. -/
inductive HolderMethod
  | destructorM
  | nameM
  | invokeWorkM
  | cloneM
deriving DecidableEq

/-- The virtual interface actually declared by AnyPerson::IPersonHolder
(lines 99-103): a virtual destructor, name, and invoke_work. -/
def IPersonHolder.virtualMethods : List HolderMethod :=
  [HolderMethod.destructorM, HolderMethod.nameM, HolderMethod.invokeWorkM]

/-- Return-type summary of a pointer-to-member type: void or anything else. -/
inductive CppRet
  | voidRet
  | nonVoidRet
deriving DecidableEq

/-- Shape of a pointer to the do_work member of a candidate worker type:
its return type and its ordered parameter-type list. -/
structure DoWorkPtr where
  ret : CppRet
  params : List Ty
deriving DecidableEq

/-- Model of make_holder (lines 129-132): its second parameter has type
void(P::*)(Args...), so template argument deduction succeeds only for a
void-returning do_work member. -/
def make_holder_accepts (ptr : DoWorkPtr) : Bool :=
  ptr.ret == CppRet.voidRet

/-- Model of the admission check on the AnyPerson constructor: the
enable_if at line 84 requires deriving from Library::Person, and the
make_holder call at line 86 requires a void-returning do_work member. -/
def eligibleWorker (isBaseOfPerson : Bool) (ptr : DoWorkPtr) : Bool :=
  isBaseOfPerson && make_holder_accepts ptr

/-- Model of Library::Office (lines 148-160): owns one AnyPerson; work
prints the name and the fixed separator, then forwards the arguments
unchanged to AnyPerson::work. -/
structure Office where
  m_person : AnyPerson

def Office.work (o : Office) {τ : List Ty} (args : HList τ) : RunResult :=
  let r := o.m_person.work args
  RunResult.mk (o.m_person.name ++ " is " ++ r.out) r.err r.ret

/-- Model of Cook::do_work (lines 163-175): prints the recipe name, the
ingredient count, and the comma-separated ingredient names, then endl. -/
def ingredientsText : List Ingredient → Bool → String
  | [], _ => ""
  | i :: rest, first => (if first then "" else ", ") ++ i.name ++ ingredientsText rest false

def Cook.do_work (recipe : Recipe) (ingredients : List Ingredient) : String × Unit :=
  (recipe.name ++ " with " ++ toString ingredients.length ++ " ingredients: "
    ++ ingredientsText ingredients true ++ "\n", ())

/-- Model of Programmer::do_work (lines 177-183). -/
def Programmer.do_work (monitor : Monitor) (keyboard : Keyboard) (coffee : Cup) :
    String × Unit :=
  (keyboard.name ++ ", " ++ monitor.name ++ ", and " ++ coffee.name ++ "\n", ())

/-- The Cook subclass as a worker value: signature (Recipe, vector of
Ingredient passed by const reference), stored type vector<Ingredient>. -/
def Cook.worker (nm : String) : Worker [Ty.recipeT, Ty.ingredientListT] :=
  Worker.mk nm (fun args => Cook.do_work args.head args.tail.head)

/-- The Programmer subclass as a worker value: signature
(Monitor, Keyboard, Cup). -/
def Programmer.worker (nm : String) : Worker [Ty.monitorT, Ty.keyboardT, Ty.cupT] :=
  Worker.mk nm
    (fun args => Programmer.do_work args.head args.tail.head args.tail.tail.head)

/-- The ingredient vector built at line 186: three ingredients, one per
string of the inner braced list. -/
def aliceIngredients : List Ingredient :=
  [Ingredient.mk "flour", Ingredient.mk "eggs", Ingredient.mk "milk"]

/-- The argument pack of the first call in main (line 186). -/
def aliceArgs : HList [Ty.recipeT, Ty.ingredientListT] :=
  HList.cons Recipe.mk (HList.cons aliceIngredients HList.nil)

/-- The argument pack of the second call in main (line 187). -/
def peterArgs : HList [Ty.monitorT, Ty.keyboardT, Ty.cupT] :=
  HList.cons Monitor.mk (HList.cons Keyboard.mk (HList.cons Cup.mk HList.nil))

/-- Everything main (lines 185-188) writes to stdout: the Alice/Cook
dispatch followed by the Peter/Programmer dispatch. -/
def mainOut : String :=
  ((Office.mk (AnyPerson.ofWorker (Cook.worker "Alice"))).work aliceArgs).out
    ++ ((Office.mk (AnyPerson.ofWorker (Programmer.worker "Peter"))).work peterArgs).out

/-- A deliberately mistyped argument pack for the Cook signature: an int
where a Recipe is expected (correct count, wrong type at position 0). -/
def badTypedArgs : HList [Ty.intT, Ty.ingredientListT] :=
  HList.cons (5 : Int) (HList.cons aliceIngredients HList.nil)

/-- A swapped argument pack for the Programmer signature: keyboard and
monitor exchanged (correct count, wrong types at positions 0 and 1). -/
def swappedArgs : HList [Ty.keyboardT, Ty.monitorT, Ty.cupT] :=
  HList.cons Keyboard.mk (HList.cons Monitor.mk (HList.cons Cup.mk HList.nil))

theorem castOne_toAny (t : Ty) (v : interp t) : castOne t (toAny t v) = some v := by
  simp [castOne, toAny]

theorem castArgs_eraseAll : ∀ {τ : List Ty} (args : HList τ),
    castArgs τ (eraseAll args) = some args := by
  intro τ args
  induction args with
  | nil => rfl
  | cons v r ih => simp [eraseAll, castArgs, castOne_toAny, ih]

theorem collect_eq_append : ∀ {τ : List Ty} (args : HList τ) (v : List Any),
    collect_any_vector v args = v ++ eraseAll args := by
  intro τ args
  induction args with
  | nil => intro v; simp [collect_any_vector, eraseAll]
  | cons a r ih => intro v; simp [collect_any_vector, eraseAll, ih]

theorem eraseAll_length : ∀ {τ : List Ty} (args : HList τ),
    (eraseAll args).length = τ.length := by
  intro τ args
  induction args with
  | nil => rfl
  | cons a r ih => simp [eraseAll, ih]

theorem eraseAll_getElem? : ∀ {τ : List Ty} (args : HList τ) (i : Nat),
    (eraseAll args)[i]? = hlistNth args i := by
  intro τ args
  induction args with
  | nil => intro i; simp [eraseAll, hlistNth]
  | cons a r ih =>
      intro i
      cases i with
      | zero => simp [eraseAll, hlistNth]
      | succ j => simp [eraseAll, hlistNth, ih]

theorem work_eq_invoke_eraseAll (d : AnyPerson) {τ : List Ty} (args : HList τ) :
    d.work args = d.m_personHolder.invoke_work (eraseAll args) := by
  simp [AnyPerson.work, collect_eq_append]

theorem ofWorker_work_success (σ : List Ty) (w : Worker σ) (args : HList σ) :
    (AnyPerson.ofWorker w).work args =
      RunResult.mk ("working on " ++ (w.do_work args).1) none (w.do_work args).2 := by
  rw [work_eq_invoke_eraseAll]
  simp [AnyPerson.ofWorker, PersonHolder.invoke_work, eraseAll_length, castArgs_eraseAll]

/-- Claim C1: for every eligible worker value w and every argument tuple
matching the arity and per-position types of the work operation of w,
constructing a Dispatcher from w and calling work on that tuple produces
exactly the observable effect of calling the operation of w directly on
those arguments, preceded by the fixed marker "working on ", with no error. -/
theorem dispatch_equals_direct_call (σ : List Ty) (w : Worker σ) (args : HList σ) :
    (AnyPerson.ofWorker w).work args =
      RunResult.mk ("working on " ++ (w.do_work args).1) none (w.do_work args).2 :=
  ofWorker_work_success σ w args

/-- Claim C2 counterexample: the claim asserts that copying a Dispatcher
deep-clones its Holder, but AnyPerson is not copy-constructible at all (its
only member is a move-only unique_ptr) and the IPersonHolder interface
declares no clone method, so no copy of a Dispatcher exists. -/
theorem dispatcher_copy_clone_cex :
    ¬ (AnyPerson.copyConstructible = true ∧
        HolderMethod.cloneM ∈ IPersonHolder.virtualMethods) := by
  decide

/-- Claim C2 (amended): the Dispatcher is move-only: the Holder interface
declares no clone entry and the implicit copy constructor of AnyPerson is
deleted through its unique_ptr member, so two Dispatchers never share a
worker by copying; independence is trivial under exclusive ownership. -/
theorem dispatcher_is_move_only :
    AnyPerson.copyConstructible = false ∧
      HolderMethod.cloneM ∉ IPersonHolder.virtualMethods := by
  decide

/-- Claim C3: calling work with an argument count different from the arity
fixed in the selected Holder fails fatally (the assert at the top of
invoke_work) before the marker is printed and before the worker operation
is called with any arguments: the result is independent of the worker
operation and carries no truncated or padded invocation. -/
theorem arity_mismatch_is_fatal (σ : List Ty) (w : Worker σ) (τ : List Ty)
    (args : HList τ) (h : τ.length ≠ σ.length) :
    (AnyPerson.ofWorker w).work args =
      RunResult.mk "" (some DispatchError.arityAssertionFailure) () := by
  rw [work_eq_invoke_eraseAll]
  simp [AnyPerson.ofWorker, PersonHolder.invoke_work, eraseAll_length, h]

theorem arity_mismatch_is_fatal_witness :
    ([] : List Ty).length ≠ ([Ty.recipeT, Ty.ingredientListT] : List Ty).length ∧
    (AnyPerson.ofWorker (Cook.worker "Alice")).work HList.nil =
      RunResult.mk "" (some DispatchError.arityAssertionFailure) () :=
  ⟨by decide,
   arity_mismatch_is_fatal [Ty.recipeT, Ty.ingredientListT] (Cook.worker "Alice")
     [] HList.nil (by decide)⟩

/-- Claim C4: a call with the correct argument count but a wrong erased
type at some position fails with TypeMismatch raised at extraction and
propagated out of work; the worker operation is never invoked (the result
is a constant independent of it), and no implicit conversion is attempted:
extracting a long from a stored int fails. -/
theorem type_mismatch_rejected :
    (∀ (σ : List Ty) (w : Worker σ) (τ : List Ty) (args : HList τ),
        τ.length = σ.length →
        castArgs σ (eraseAll args) = none →
        (AnyPerson.ofWorker w).work args =
          RunResult.mk "working on " (some DispatchError.typeMismatch) ()) ∧
    (∀ n : Int, castOne Ty.longT (toAny Ty.intT n) = none) := by
  constructor
  · intro σ w τ args hlen hcast
    rw [work_eq_invoke_eraseAll]
    simp [AnyPerson.ofWorker, PersonHolder.invoke_work, eraseAll_length, hlen, hcast]
  · intro n
    rfl

theorem type_mismatch_rejected_witness :
    ([Ty.intT, Ty.ingredientListT] : List Ty).length =
        ([Ty.recipeT, Ty.ingredientListT] : List Ty).length ∧
    castArgs [Ty.recipeT, Ty.ingredientListT] (eraseAll badTypedArgs) = none ∧
    (AnyPerson.ofWorker (Cook.worker "Alice")).work badTypedArgs =
      RunResult.mk "working on " (some DispatchError.typeMismatch) () :=
  ⟨by decide, rfl,
   type_mismatch_rejected.1 [Ty.recipeT, Ty.ingredientListT] (Cook.worker "Alice")
     [Ty.intT, Ty.ingredientListT] badTypedArgs (by decide) rfl⟩

/-- Claim C5: the program prints exactly two lines: the Alice and Cook line
followed by the Peter and Programmer line, character for character. -/
theorem main_output_exact :
    mainOut = "Alice is working on recipe with 3 ingredients: flour, eggs, milk\n"
        ++ "Peter is working on keyboard, monitor, and coffee\n" ∧
    mainOut.data.count '\n' = 2 := by
  constructor
  · rfl
  · rfl

/-- Claim C6: for every successful dispatch through the Consumer, the
printed output is, in this exact order: the worker name, the fixed
separator " is " (both from Office::work), the fixed marker "working on "
(from the Holder), then whatever the worker operation itself writes. -/
theorem consumer_output_order (σ : List Ty) (w : Worker σ) (args : HList σ) :
    (Office.mk (AnyPerson.ofWorker w)).work args =
      RunResult.mk (w.name ++ " is " ++ ("working on " ++ (w.do_work args).1))
        none (w.do_work args).2 := by
  simp [Office.work, AnyPerson.name, PersonHolder.name, AnyPerson.ofWorker,
    AnyPerson.work, collect_eq_append, PersonHolder.invoke_work, eraseAll_length,
    castArgs_eraseAll]

/-- Claim C7 counterexample: the claim asserts name stability across copy
of the Dispatcher, but AnyPerson is not copy-constructible (its only member
is a move-only unique_ptr), so no copy of a Dispatcher exists at all. -/
theorem name_stable_copy_cex : ¬ (AnyPerson.copyConstructible = true) := by
  decide

/-- Claim C7 (amended): the Dispatcher constructed from w reports name equal
to the name of w, the name is stable across move, and no copy operation
exists (AnyPerson is move-only), so stability across copy is inapplicable. -/
theorem name_passthrough_stable_across_move :
    (∀ (σ : List Ty) (w : Worker σ), (AnyPerson.ofWorker w).name = w.name) ∧
    (∀ d : AnyPerson, (AnyPerson.moveFrom d).name = d.name) ∧
    AnyPerson.copyConstructible = false :=
  ⟨fun _ _ => rfl, fun _ => rfl, by decide⟩

/-- Claim C8: work assembles a fresh ordered sequence of erased carriers in
call order starting from the empty vector, the i-th carrier holding exactly
the erasure of the i-th caller-supplied argument, delegates that sequence to
the invoke entry of the Holder, and extracting the sequence back at the
caller types yields the original values in positional order. -/
theorem work_packages_args_in_order (d : AnyPerson) (τ : List Ty) (args : HList τ) :
    d.work args = d.m_personHolder.invoke_work (collect_any_vector [] args) ∧
    (collect_any_vector [] args).length = τ.length ∧
    (∀ i : Nat, (collect_any_vector [] args)[i]? = hlistNth args i) ∧
    castArgs τ (collect_any_vector [] args) = some args := by
  refine ⟨rfl, ?_, ?_, ?_⟩
  · rw [collect_eq_append]
    simp [eraseAll_length]
  · intro i
    rw [collect_eq_append]
    simp [eraseAll_getElem?]
  · rw [collect_eq_append]
    simp [castArgs_eraseAll]

/-- Claim C9: when a per-argument TypeMismatch occurs during extraction, the
fixed marker "working on " and, through the Consumer, the worker name and
the separator " is " have already been printed before the error propagates:
the observable output is not left unchanged on a type-mismatch error. -/
theorem mismatch_marker_already_printed (σ : List Ty) (w : Worker σ) (τ : List Ty)
    (args : HList τ) (hlen : τ.length = σ.length)
    (hcast : castArgs σ (eraseAll args) = none) :
    (Office.mk (AnyPerson.ofWorker w)).work args =
      RunResult.mk (w.name ++ " is " ++ "working on ")
        (some DispatchError.typeMismatch) () ∧
    ((Office.mk (AnyPerson.ofWorker w)).work args).out ≠ "" := by
  constructor
  · simp [Office.work, AnyPerson.name, PersonHolder.name, AnyPerson.ofWorker,
      AnyPerson.work, collect_eq_append, PersonHolder.invoke_work, eraseAll_length,
      hlen, hcast]
  · simp [Office.work, AnyPerson.name, PersonHolder.name, AnyPerson.ofWorker,
      AnyPerson.work, collect_eq_append, PersonHolder.invoke_work, eraseAll_length,
      hlen, hcast]
    intro h
    have h2 := congrArg String.length h
    have h4 : (" is " : String).length = 4 := rfl
    have h11 : ("working on " : String).length = 11 := rfl
    have h0 : ("" : String).length = 0 := rfl
    rw [String.length_append, String.length_append, h4, h11, h0] at h2
    omega

theorem mismatch_marker_already_printed_witness :
    ([Ty.keyboardT, Ty.monitorT, Ty.cupT] : List Ty).length =
        ([Ty.monitorT, Ty.keyboardT, Ty.cupT] : List Ty).length ∧
    castArgs [Ty.monitorT, Ty.keyboardT, Ty.cupT] (eraseAll swappedArgs) = none ∧
    ((Office.mk (AnyPerson.ofWorker (Programmer.worker "Peter"))).work swappedArgs =
        RunResult.mk ("Peter" ++ " is " ++ "working on ")
          (some DispatchError.typeMismatch) () ∧
      ((Office.mk (AnyPerson.ofWorker (Programmer.worker "Peter"))).work
        swappedArgs).out ≠ "") :=
  ⟨by decide, rfl,
   mismatch_marker_already_printed [Ty.monitorT, Ty.keyboardT, Ty.cupT]
     (Programmer.worker "Peter") [Ty.keyboardT, Ty.monitorT, Ty.cupT]
     swappedArgs (by decide) rfl⟩

/-- Claim C10: a type is accepted for erasure only if it derives from
Library::Person and its do_work member returns void, and consequently the
erased work call never produces a result value: its return component is the
unit value for every Dispatcher and every argument list. -/
theorem eligibility_and_void_dispatch :
    (∀ (b : Bool) (ptr : DoWorkPtr),
        eligibleWorker b ptr = true → b = true ∧ ptr.ret = CppRet.voidRet) ∧
    (∀ (d : AnyPerson) (τ : List Ty) (args : HList τ), (d.work args).ret = ()) := by
  constructor
  · intro b ptr h
    simp [eligibleWorker, make_holder_accepts] at h
    exact h
  · intro d τ args
    rfl

theorem eligibility_and_void_dispatch_witness :
    true = true ∧ (DoWorkPtr.mk CppRet.voidRet []).ret = CppRet.voidRet :=
  eligibility_and_void_dispatch.1 true (DoWorkPtr.mk CppRet.voidRet []) (by decide)

